import Mathlib

/-!
Verification development for the screeps-logger repository.

The definitions below are shallow embeddings of the JavaScript source:
`pushRing`/`getLogs` and the `emit` pipeline come from `screeps-logger.js`
(the emit-based module), and the `CL` namespace embeds the class-based
`Logger` (`logger.js` / the class half of `screeps-logger.js`).
JavaScript `undefined` is modelled with `Option`, and the JS comparison
semantics on possibly-undefined numbers (`undefined > n` and
`undefined <= n` are both false, as NaN comparisons) are modelled by
`jsGtNum` / `jsLeNum`.
-/

set_option maxHeartbeats 1000000

namespace ScreepsLogger

/-- JS `a > b` where `a` may be `undefined` (an undefined operand makes the
comparison NaN-false). Source: `if (level > CFG.level) return false`. -/
def jsGtNum : Option Nat → Nat → Bool
  | some a, b => decide (b < a)
  | none, _ => false

/-- JS `a <= b` where `a` may be `undefined`.
Source: `return level <= LOG_LEVEL.WARN`. -/
def jsLeNum : Option Nat → Nat → Bool
  | some a, b => decide (a ≤ b)
  | none, _ => false

/-- The ring buffer `global.__logRing` of `screeps-logger.js`:
`{ head, size, buf }` where `buf` has a fixed length `size` and empty slots
are `none` (JS `undefined`). -/
structure Ring (α : Type) where
  head : Nat
  size : Nat
  buf : List (Option α)
  deriving Repr, DecidableEq

/-- `pushRing(entry)`: `r.buf[r.head] = entry; r.head = (r.head + 1) % r.size`. -/
def pushRing {α : Type} (e : α) (r : Ring α) : Ring α :=
  { head := (r.head + 1) % r.size, size := r.size, buf := r.buf.set r.head (some e) }

/-- The initial ring: `{ head: 0, size: C, buf: new Array(C) }` (all slots empty). -/
def emptyRing (α : Type) (C : Nat) : Ring α :=
  { head := 0, size := C, buf := List.replicate C none }

/-- The slot sequence visited by `Logger.getLogs`: for `i` in `0..size-1` the
slot at `(head + i) % size`. -/
def readSlots {α : Type} (r : Ring α) : List (Option α) :=
  (List.range r.size).map (fun i => r.buf.getD ((r.head + i) % r.size) none)

/-- `Logger.getLogs()` (no predicate): walk `(head + i) % size` for exactly
`size` steps, skipping empty slots. -/
def getLogs {α : Type} (r : Ring α) : List α :=
  (readSlots r).filterMap id

/-- Push a whole sequence of entries, oldest first. -/
def pushAll {α : Type} (es : List α) (r : Ring α) : Ring α :=
  es.foldl (fun acc e => pushRing e acc) r

/-- Abstraction of the ring state: the retained entries from oldest to
newest.  The scan shows the empty slots first, then the live entries. -/
def Rep {α : Type} (r : Ring α) (l : List α) : Prop :=
  r.buf.length = r.size ∧ r.head < r.size ∧ l.length ≤ r.size ∧
    readSlots r = List.replicate (r.size - l.length) none ++ l.map some

/-- FIFO push on the abstract list: append, evicting the oldest when full. -/
def absPush {α : Type} (C : Nat) (l : List α) (e : α) : List α :=
  if l.length < C then l ++ [e] else l.tail ++ [e]

/-- JS string-or-undefined truthiness (`undefined` and `""` are falsy). -/
def jsTruthyStr : Option String → Bool
  | some s => !s.isEmpty
  | none => false

/-- JS `a || b` on a possibly-undefined string (empty string is falsy). -/
def jsOrStr : Option String → String → String
  | some s, d => if s.isEmpty then d else s
  | none, d => d

/-- JS `a || b` on a possibly-undefined number (`0` is falsy).
Source: `entry.tick = entry.tick || Game.time`. -/
def jsOrNat : Option Nat → Nat → Nat
  | some t, d => if t = 0 then d else t
  | none, d => d

/-- JS array indexing coerced into a template string: an out-of-range index
yields `undefined`, printed as the text `undefined`. -/
def jsIdxStr (xs : List String) : Option Nat → String
  | some n => xs.getD n "undefined"
  | none => "undefined"

/-- A single quote character (used verbatim by the link builders). -/
def sq : String := String.singleton (Char.ofNat 39)

def roomURLescapeChar (c : Char) : String :=
  if c = 'N' then "%4E"
  else if c = 'S' then "%53"
  else if c = 'E' then "%45"
  else if c = 'W' then "%57"
  else String.singleton c

/-- `roomURLescape(roomName)` (identical in every module). -/
def roomURLescape (roomName : String) : String :=
  String.join (roomName.toList.map roomURLescapeChar)

/-- Pointwise update of a function-modelled JS object/heap. -/
def updFn {β : Type} (f : Nat → β) (a : Nat) (b : β) : Nat → β :=
  fun x => if x = a then b else f x

/-! ## The emit-based module of `screeps-logger.js`

Levels are `ERROR: 0, WARN: 1, INFO: 2, DEBUG: 3, TRACE: 4`. -/

namespace SL

/-- `humanize(key)`: lowercase, underscores to spaces, title-case each word. -/
def humanize (key : String) : String :=
  String.intercalate " " ((key.toLower.splitOn "_").map (fun w => w.capitalize))

/-- `buildTextDict(enumObj)`: value-to-humanized-name dictionary. -/
def buildTextDict (l : List (String × Nat)) : List (Nat × String) :=
  l.map (fun p => (p.2, humanize p.1))

def MSG_SPAWN : List (String × Nat) :=
  [("SUCCESS", 100), ("FAILED", 101), ("QUEUED", 102), ("CANCELLED", 103), ("ENERGY_LOW", 104)]

def MSG_MOVE : List (String × Nat) :=
  [("STARTED", 200), ("BLOCKED", 201), ("STUCK", 202), ("FAILED", 203), ("COMPLETED", 204)]

def MSG_PATH : List (String × Nat) :=
  [("FOUND", 300), ("NOT_FOUND", 301), ("BLOCKED", 302), ("RECALCULATING", 303), ("FAILED", 304)]

def MSG_ECON : List (String × Nat) :=
  [("RESOURCES_LOW", 400), ("STORAGE_FULL", 401), ("STORAGE_EMPTY", 402),
    ("ENERGY_SHORTAGE", 403), ("ENERGY_SURPLUS", 404)]

def MSG_CLAIM : List (String × Nat) :=
  [("STARTED", 500), ("SUCCESS", 501), ("FAILED", 502), ("ATTACKED", 503), ("RESERVED", 504)]

def MSG_LAB : List (String × Nat) :=
  [("REACTION_START", 600), ("REACTION_COMPLETE", 601), ("REACTION_FAILED", 602),
    ("DELIVER_FAILED", 603), ("EMPTY", 604)]

def MSG_DEFENSE : List (String × Nat) :=
  [("ENEMY_DETECTED", 700), ("DEFEND_START", 701), ("DEFEND_LOST", 702),
    ("DEFEND_WON", 703), ("WALL_BREACHED", 704)]

def MSG_OFFENSE : List (String × Nat) :=
  [("ATTACK_STARTED", 800), ("ATTACK_SUCCESS", 801), ("ATTACK_FAILED", 802),
    ("TARGET_DESTROYED", 803), ("RETREAT", 804)]

def MSG_SIEGE : List (String × Nat) :=
  [("STARTED", 900), ("PROGRESS", 901), ("COMPLETED", 902), ("FAILED", 903), ("RETREATED", 904)]

def MSG_QUAD : List (String × Nat) :=
  [("FORMED", 1000), ("ATTACK", 1001), ("DISBANDED", 1002), ("DAMAGED", 1003), ("DESTROYED", 1004)]

def MSG_INTEL : List (String × Nat) :=
  [("UPDATED", 1100), ("THREAT_DETECTED", 1101), ("OPPORTUNITY", 1102),
    ("CONFIRMED", 1103), ("EXPIRED", 1104)]

def MSG_OBSERVER : List (String × Nat) :=
  [("COMPLETE", 1200), ("FAILED", 1201), ("SCHEDULED", 1202), ("CANCELLED", 1203), ("DATA", 1204)]

def MSG_EXPAND : List (String × Nat) :=
  [("STARTED", 1300), ("AVAILABLE", 1301), ("FAILED", 1302), ("COMPLETED", 1303),
    ("CANCELLED", 1304)]

def MSG_CPU : List (String × Nat) :=
  [("CRITICAL", 1400), ("HIGH", 1401), ("NORMAL", 1402), ("EXCEEDED", 1403), ("BUCKET_LOW", 1404)]

def MSG_MEM : List (String × Nat) :=
  [("CRITICAL", 1500), ("HIGH", 1501), ("NORMAL", 1502), ("CORRUPTED", 1503), ("RESET", 1504)]

def MSG_ERROR : List (String × Nat) :=
  [("CRITICAL", 1600), ("UNEXPECTED", 1601), ("VALIDATION", 1602),
    ("RECOVERY_FAILED", 1603), ("ROLLBACK", 1604)]

def MSG_SYSTEM : List (String × Nat) :=
  [("RESET", 1700), ("STARTUP", 1701), ("SHUTDOWN", 1702), ("CHECK", 1703), ("RECOVER", 1704)]

/-- `MSG_TEXT`: spread of all the per-category dictionaries (all codes are
distinct, so the spread order does not matter for lookup). -/
def MSG_TEXT : List (Nat × String) :=
  buildTextDict MSG_SPAWN ++ buildTextDict MSG_MOVE ++ buildTextDict MSG_PATH ++
    buildTextDict MSG_ECON ++ buildTextDict MSG_CLAIM ++ buildTextDict MSG_LAB ++
    buildTextDict MSG_DEFENSE ++ buildTextDict MSG_OFFENSE ++ buildTextDict MSG_SIEGE ++
    buildTextDict MSG_QUAD ++ buildTextDict MSG_INTEL ++ buildTextDict MSG_OBSERVER ++
    buildTextDict MSG_EXPAND ++ buildTextDict MSG_CPU ++ buildTextDict MSG_MEM ++
    buildTextDict MSG_ERROR ++ buildTextDict MSG_SYSTEM

def LOG_CAT : List (String × Nat) :=
  [("SPAWN", 0), ("MOVE", 1), ("PATH", 2), ("ECON", 3), ("CLAIM", 4), ("LAB", 5),
    ("DEFENSE", 6), ("OFFENSE", 7), ("SIEGE", 8), ("QUAD", 9),
    ("INTEL", 10), ("OBSERVER", 11), ("EXPAND", 12),
    ("CPU", 13), ("MEM", 14), ("ERROR", 15), ("SYSTEM", 16)]

def CAT_NAME : List (Nat × String) := buildTextDict LOG_CAT

def LEVEL_NAME : List String := ["ERROR", "WARN ", "INFO ", "DEBUG", "TRACE"]

def LEVEL_COLORS : List (Nat × String) :=
  [(0, "#FF6B6B"), (1, "#FFD166"), (2, "#4DA3FF"), (3, "#6BCF8E"), (4, "#9E9E9E")]

def NOTIFY_INTERVAL : Nat := 60

def PATH : List (String × String) :=
  [("shardSeason", "https://screeps.com/season"), ("world", "https://screeps.com/a")]

/-- `PATH[Game.shard.name] || PATH["world"]`. -/
def frontOf (shard : String) : String :=
  jsOrStr (PATH.lookup shard) "https://screeps.com/a"

/-- `getRoomUrl(roomName)`. -/
def getRoomUrl (shard roomName : String) : String :=
  frontOf shard ++ "/#!/room/" ++ shard ++ "/" ++ roomURLescape roomName

/-- `getRoomLink(roomName)`. -/
def getRoomLink (shard roomName : String) : String :=
  "<a href=\"" ++ getRoomUrl shard roomName ++ "\" target=\"_blank\">" ++ roomName ++ "</a>"

/-- `getReplayLink(roomName, tick)` (first emit module: the link text is the tick). -/
def getReplayLink (shard roomName : String) (tick : Nat) : String :=
  "<a href=" ++ sq ++ frontOf shard ++ "/#!/history/" ++ shard ++ "/" ++
    roomURLescape roomName ++ "?t=" ++ toString tick ++ sq ++ ">" ++ toString tick ++ "</a>"

/-- `flags` object: `{ notify?, notifyNow?, context? }`. -/
structure Flags where
  notify : Bool := false
  notifyNow : Bool := false
  context : Bool := false
  deriving Repr, DecidableEq

/-- A ring-buffer entry as built by `emit`:
`{ t, ts, l, c, r, m, d, f }`.  `l` is `Option` because `emit` never
validates its `level` argument against `undefined`. -/
structure SLEntry where
  t : Nat
  ts : Nat
  l : Option Nat
  c : Nat
  r : Option String
  m : Nat
  d : Option (List (String × String)) := none
  f : Option Flags := none
  deriving Repr, DecidableEq

/-- Host context consumed by the pipeline: `Game.time`, `Date.now()`,
the per-tick time formatter and `Game.shard.name`. -/
structure SLCtx where
  time : Nat
  now : Nat
  fmtTime : Nat → String
  shard : String

/-- `CFG`: `{ level, enabledCats }` (a `none` category set means all pass). -/
structure SLCfg where
  level : Nat
  enabledCats : Option (List Nat)
  deriving Repr, DecidableEq

/-- `MSG_TEXT[m] || "MSG_" + m`. -/
def msgTextOf (m : Nat) : String :=
  jsOrStr (MSG_TEXT.lookup m) ("MSG_" ++ toString m)

/-- `CAT_NAME[c]` interpolated into the line (unknown category prints
`undefined`). -/
def catNameOf (c : Nat) : String :=
  jsOrStr (CAT_NAME.lookup c) "undefined"

/-- `(" (" + k=v pairs + ")")` when a data dictionary is present. -/
def renderData : Option (List (String × String)) → String
  | some d => " (" ++ String.intercalate ", " (d.map (fun kv => kv.1 ++ "=" ++ kv.2)) ++ ")"
  | none => ""

/-- `render(entry)` of the first emit module, as the returned `line` string
(console color spans are console-side only; `render` returns the plain
line).  Total: every lookup failure is coerced the way JS coerces
`undefined` in a template string, so rendering never throws. -/
def renderLine (ctx : SLCtx) (e : SLEntry) : String :=
  let time := ctx.fmtTime e.ts
  let tickStr := if jsTruthyStr e.r then getReplayLink ctx.shard (e.r.getD "") e.t
    else toString e.t
  let roomNameStr := if jsTruthyStr e.r then getRoomLink ctx.shard (e.r.getD "") else "--"
  "[" ++ time ++ " " ++ tickStr ++ "] [" ++ jsIdxStr LEVEL_NAME e.l ++ "] [" ++
    catNameOf e.c ++ "] [" ++ roomNameStr ++ "] " ++ msgTextOf e.m ++ renderData e.d

/-- `CFG.enabledCats && !CFG.enabledCats.has(cat)` (an active allow-set that
does not contain the category blocks the entry; an empty set is truthy in JS
and blocks everything). -/
def catBlocked (cfg : SLCfg) (cat : Nat) : Bool :=
  match cfg.enabledCats with
  | some cats => !(cats.contains cat)
  | none => false

/-- `enabled(level, cat)`. -/
def enabled (cfg : SLCfg) (level : Option Nat) (cat : Nat) : Bool :=
  if jsGtNum level cfg.level then false
  else if catBlocked cfg cat then false
  else true

/-- `shouldNotify(level, msg)`: `level <= LOG_LEVEL.WARN`. -/
def shouldNotify (level : Option Nat) (_msg : Nat) : Bool :=
  jsLeNum level 1

/-- `flags && flags.notify`. -/
def flagNotify : Option Flags → Bool
  | some fl => fl.notify
  | none => false

/-- `flags && flags.notifyNow`. -/
def flagNotifyNow : Option Flags → Bool
  | some fl => fl.notifyNow
  | none => false

/-- The observable outcome of one `emit` call: the ring afterwards, the
rendered console line if any, and the `Game.notify(text, interval)` call if
any. -/
structure EmitOut where
  ring : Ring SLEntry
  rendered : Option String
  notified : Option (String × Nat)
  deriving Repr, DecidableEq

/-- The entry object built by `emit`:
`{ t: Game.time, ts: Date.now(), l: level, c: cat, r: roomName, m: msg, d: data, f: flags }`. -/
def mkEntry (ctx : SLCtx) (level : Option Nat) (cat : Nat) (roomName : Option String)
    (msg : Nat) (data : Option (List (String × String))) (flags : Option Flags) : SLEntry :=
  { t := ctx.time, ts := ctx.now, l := level, c := cat, r := roomName, m := msg,
    d := data, f := flags }

/-- `emit(level, cat, roomName, msg, data, flags)`. -/
def emit (cfg : SLCfg) (ctx : SLCtx) (r : Ring SLEntry) (level : Option Nat) (cat : Nat)
    (roomName : Option String) (msg : Nat) (data : Option (List (String × String)))
    (flags : Option Flags) : EmitOut :=
  if !(enabled cfg level cat) then { ring := r, rendered := none, notified := none }
  else
    let entry : SLEntry := mkEntry ctx level cat roomName msg data flags
    let line := renderLine ctx entry
    let ring2 := pushRing entry r
    if shouldNotify level msg || flagNotify flags then
      let interval := if (level == some 0) || flagNotifyNow flags then 0 else NOTIFY_INTERVAL
      { ring := ring2, rendered := some line, notified := some (line, interval) }
    else
      { ring := ring2, rendered := some line, notified := none }

end SL

/-! ## The class-based `Logger` (`logger.js` and the class half of
`screeps-logger.js`)

Levels are `FATAL: 0, ERROR: 1, WARN: 2, INFO: 3, DEBUG: 4, TRACE: 5`. -/

namespace CL

def LEVEL_NAMES : List String := ["FATAL", "ERROR", "WARN", "INFO", "DEBUG", "TRACE"]

def DEFAULT_LOG_LEVEL : Nat := 3

def NOTIFY_LOG_LEVEL : Nat := 2

def NOTIFY_INTERVAL : Nat := 60

def MAX_LOG_NUM : Nat := 100

/-- `LEVEL_COLORS` of `logger.js`, keyed by level name, with a `DEFAULT`. -/
def LEVEL_COLORS : List (String × String) :=
  [("FATAL", "#C0392B"), ("ERROR", "#B22222"), ("WARN", "#B8860B"), ("INFO", "#0055AA"),
    ("DEBUG", "#228B22"), ("TRACE", "#555555"), ("DEFAULT", "#dddddd")]

def PATH : List (String × String) :=
  [("jaysee", "http://jayseegames.localhost:8080/(http://jayseegames.com:21025)"),
    ("shardSeason", "https://screeps.com/season"), ("DEFAULT", "https://screeps.com/a")]

/-- `String.prototype.padEnd(n, " ")`. -/
def padEnd (s : String) (n : Nat) : String :=
  s ++ String.mk (List.replicate (n - s.length) ' ')

/-- `getColoredText(text, color)`. -/
def getColoredText (text color : String) : String :=
  "<span style = \"color: " ++ color ++ "\">" ++ text ++ "</span>"

/-- `PATH[Game.shard.name] || PATH["DEFAULT"]`. -/
def frontOf (shard : String) : String :=
  jsOrStr (PATH.lookup shard) "https://screeps.com/a"

/-- `getRoomUrl(roomName)` (`logger.js` does not URL-escape the room name). -/
def getRoomUrl (shard roomName : String) : String :=
  frontOf shard ++ "/#!/room/" ++ shard ++ "/" ++ roomName

/-- `Logger.getRoomLink(roomName)`. -/
def getRoomLink (shard roomName : String) : String :=
  "<a href=\"" ++ getRoomUrl shard roomName ++ "\" target=\"_blank\">" ++ roomName ++ "</a>"

/-- `Logger.getReplayLink(roomName, tick)` with the default link text. -/
def getReplayLink (shard roomName : String) (tick : Nat) : String :=
  "<a href=" ++ sq ++ frontOf shard ++ "/#!/history/" ++ shard ++ "/" ++
    roomURLescape roomName ++ "?t=" ++ toString tick ++ sq ++ ">replay</a>"

/-- The entry as `Logger.defaultFormat` destructures it. -/
structure FEntry where
  level : Nat
  message : String
  time : String
  tick : Option Nat := none
  roomName : Option String := none
  replay : Option Bool := none
  deriving Repr, DecidableEq

/-- Host context: `Game.time` and `Game.shard.name`. -/
structure CLCtx where
  time : Nat
  shard : String
  deriving Repr, DecidableEq

/-- `Logger.defaultFormat(name, entry)` of `logger.js`.

`LEVEL_NAMES[level]` is `undefined` for a level outside the table, and the
very next step `levelName.padEnd(5, " ")` then throws a TypeError; that
exceptional path is the `Except.error` branch.  The color lookup, unlike the
label, has an explicit `|| LEVEL_COLORS["DEFAULT"]` fallback. -/
def defaultFormatE (ctx : CLCtx) (name : String) (e : FEntry) : Except String String :=
  match LEVEL_NAMES.get? e.level with
  | none => Except.error "TypeError"
  | some levelName =>
    let levelNameFormatted := padEnd levelName 5
    let nameFormatted := padEnd name 10
    let tick := e.tick.getD ctx.time
    let base := "[" ++ e.time ++ "] [" ++ toString tick ++ "] [" ++ levelNameFormatted ++
      "] [" ++ nameFormatted ++ "] [" ++ e.message ++ "]"
    let withRoom :=
      if jsTruthyStr e.roomName then
        let rn := e.roomName.getD ""
        let r1 := base ++ " [" ++ getRoomLink ctx.shard rn ++ "]"
        if e.replay.getD true then r1 ++ " [" ++ getReplayLink ctx.shard rn tick ++ "]"
        else r1
      else base
    let color := jsOrStr (LEVEL_COLORS.lookup levelName) "#dddddd"
    Except.ok (getColoredText withRoom color)

/-- A log-call message: either a string or a zero-argument producer.  The
producer is modelled state-passing (`σ → String × σ`) so that the number of
times the code invokes it is observable in the final state. -/
inductive Msg (σ : Type) where
  | str (s : String)
  | fn (f : σ → String × σ)

/-- A mutable JS entry object, as `Logger.log` sees and mutates it.
`none` models a field that is `undefined`. -/
structure EntryObj (σ : Type) where
  level : Option Nat := none
  message : Msg σ
  roomName : Option String := none
  tick : Option Nat := none
  notify : Option Bool := none
  memory : Option Bool := none
  timestamp : Option Nat := none

/-- `Memory._logs[name]`: the write cursor plus the slot map; a slot holds a
reference into the heap (JS objects are stored by reference). -/
structure MemSt where
  index : Option Nat := none
  slots : Nat → Option Nat

/-- The state a `Logger.log` call reads and writes: the object heap, the
logger memory, the thunk state, and the console/notification sinks. -/
structure LogSt (σ : Type) where
  heap : Nat → EntryObj σ
  mem : MemSt
  thunkSt : σ
  console : List String := []
  notified : List (String × Nat) := []

/-- `defaultMemoryCallback(entry)`: `entry.level <= LOG_LEVELS.INFO`. -/
def defaultMemoryCallback {σ : Type} (e : EntryObj σ) : Bool :=
  jsLeNum e.level 3

/-- `defaultNotifyCallback(entry)`: `entry.level <= LOG_LEVELS.WARN`. -/
def defaultNotifyCallback {σ : Type} (e : EntryObj σ) : Bool :=
  jsLeNum e.level 2

/-- A constructed `Logger` instance: name, min level, ring limit, and the
pluggable format/notify/memory callbacks. -/
structure LoggerCfg (σ : Type) where
  name : String
  level : Nat := DEFAULT_LOG_LEVEL
  limit : Nat := MAX_LOG_NUM
  format : String → EntryObj σ → String
  notifyCallback : EntryObj σ → Bool := defaultNotifyCallback
  memoryCallback : EntryObj σ → Bool := defaultMemoryCallback

/-- Host context for a `log` call: `Game.time`, `Date.now()` and
`Memory._logs._stream`. -/
structure CLGameCtx where
  time : Nat
  now : Nat
  stream : Option (List String) := none

/-- `Logger.getStreamTarget() && !Logger.getStreamTarget().includes(this.name)`
(an empty array is truthy in JS, so an empty allow-list blocks every name). -/
def streamBlocked (name : String) (stream : Option (List String)) : Bool :=
  match stream with
  | some names => !(names.contains name)
  | none => false

/-- `Logger.prototype.log(entry)` of the class half of `screeps-logger.js`
(lines 335-377), with the entry passed by reference into the heap.

Control flow, in source order: stream gate; malformed/severity gate;
in-place thunk resolution (`entry.message = entry.message()`); timestamp and
tick assignment; format + console; `notify`/`memory` defaulting via the
callbacks; ring storage of the same reference; `Game.notify`. -/
def log {σ : Type} (cfg : LoggerCfg σ) (ctx : CLGameCtx) (st : LogSt σ) (ref : Nat) :
    LogSt σ :=
  if streamBlocked cfg.name ctx.stream then st
  else
    let entry0 := st.heap ref
    if entry0.level = none then st
    else if jsGtNum entry0.level cfg.level then st
    else
      let resolved : EntryObj σ × σ :=
        match entry0.message with
        | Msg.fn f =>
          let r := f st.thunkSt
          ({ entry0 with message := Msg.str r.1 }, r.2)
        | Msg.str s => ({ entry0 with message := Msg.str s }, st.thunkSt)
      let base := resolved.1
      let entry1 :=
        { base with timestamp := some ctx.now, tick := some (jsOrNat base.tick ctx.time) }
      let line := cfg.format cfg.name entry1
      let entry2 := if entry1.notify = none
        then { entry1 with notify := some (cfg.notifyCallback entry1) } else entry1
      let entry3 := if entry2.memory = none
        then { entry2 with memory := some (cfg.memoryCallback entry2) } else entry2
      let mem2 :=
        if entry3.memory = some true then
          let idx := st.mem.index.getD 0
          ({ index := some ((idx + 1) % cfg.limit),
             slots := updFn st.mem.slots idx (some ref) } : MemSt)
        else st.mem
      let notified2 := if entry3.notify = some true
        then st.notified ++ [(line, NOTIFY_INTERVAL)] else st.notified
      { heap := updFn st.heap ref entry3, mem := mem2, thunkSt := resolved.2,
        console := st.console ++ [line], notified := notified2 }

/-- `Logger.clearAll()` of `screeps-logger.js` on the keyed `Memory._logs`
structure: the loop deletes every key that differs from the literal
`"._stream"`.  (The reserved stream key actually used everywhere else is
`"_stream"`, without the dot.) -/
def clearAll {V : Type} (logs : List (String × V)) : List (String × V) :=
  logs.filter (fun kv => kv.1 == "._stream")

end CL

/-! ## The `print()` do-while loop

`print` walks `index = (index + 1) % limit` starting from
`currentIndex = memory.index` and exits when `index === currentIndex`
again.  In `part_000` there is no `currentIndex === undefined` guard, so on
a never-written buffer the index arithmetic runs on `undefined`:
`undefined + 1` is `NaN`, `NaN % limit` is `NaN`, and `NaN` is strictly
unequal to everything. -/

namespace JSLoop

/-- A JS loop-index value: a number, `undefined`, or `NaN`. -/
inductive JSIdx where
  | undef
  | nan
  | num (n : Nat)
  deriving Repr, DecidableEq

/-- One `index = (index + 1) % this.limit` step. -/
def jsAdvance (C : Nat) : JSIdx → JSIdx
  | JSIdx.num n => JSIdx.num ((n + 1) % C)
  | _ => JSIdx.nan

/-- JS strict equality `===` on loop indices (`NaN` is unequal to
everything, itself included). -/
def jsEqIdx : JSIdx → JSIdx → Bool
  | JSIdx.undef, JSIdx.undef => true
  | JSIdx.num a, JSIdx.num b => a == b
  | _, _ => false

end JSLoop

/-! ## Concrete fixtures used by the witnesses -/

/-- A concrete host context for the emit pipeline. -/
def sampleCtx : SL.SLCtx := { time := 5, now := 7, fmtTime := fun _ => "T", shard := "shard0" }

/-- The default `CFG` (`level: LOG_LEVEL.INFO, enabledCats: null`). -/
def sampleCfg : SL.SLCfg := { level := 2, enabledCats := none }

/-- A message producer that bumps a counter every time it runs. -/
def counterThunk : Nat → String × Nat := fun n => ("lazy", n + 1)

/-- A concrete class-logger configuration. -/
def cfgW : CL.LoggerCfg Nat := { name := "TestModule", format := fun _ _ => "line" }

/-- A concrete `log`-call context with no stream allow-list. -/
def ctxW : CL.CLGameCtx := { time := 5, now := 7 }

/-- State whose entry 0 carries a counting thunk at level WARN and asks for
memory storage. -/
def stW : CL.LogSt Nat :=
  { heap := fun _ =>
      { level := some 2, message := CL.Msg.fn counterThunk, memory := some true },
    mem := { slots := fun _ => none }, thunkSt := 0 }

/-- State whose entry 0 is malformed: its `level` is `undefined`. -/
def stMalformed : CL.LogSt Nat :=
  { heap := fun _ => { level := none, message := CL.Msg.str "m" },
    mem := { slots := fun _ => none }, thunkSt := 0 }

/-- A concrete context for `defaultFormat`. -/
def ctxCL : CL.CLCtx := { time := 9, shard := "shard0" }

/-! ## Ring-buffer lemmas and the C1 theorem -/

theorem length_readSlots {α : Type} (r : Ring α) : (readSlots r).length = r.size := by
  simp [readSlots]

theorem getElem_readSlots {α : Type} (r : Ring α) (i : Nat) (h : i < (readSlots r).length) :
    (readSlots r)[i] = r.buf.getD ((r.head + i) % r.size) none := by
  simp [readSlots]

theorem getD_replicate_none {α : Type} (C j : Nat) :
    (List.replicate C (none : Option α)).getD j none = none := by
  rcases Nat.lt_or_ge j C with h | h
  · rw [List.getD_eq_getElem _ _ (by simpa using h)]
    simp
  · rw [List.getD_eq_default _ _ (by simpa using h)]

/-- One push shifts the read-out window: the oldest slot is dropped and the
new entry shows up at the end of the scan. -/
theorem readSlots_push {α : Type} (e : α) (r : Ring α)
    (hbuf : r.buf.length = r.size) (hh : r.head < r.size) :
    readSlots (pushRing e r) = (readSlots r).drop 1 ++ [some e] := by
  have hC : 0 < r.size := Nat.lt_of_le_of_lt (Nat.zero_le _) hh
  apply List.ext_getElem
  · simp [readSlots, pushRing]
    omega
  · intro i h1 h2
    have hi : i < r.size := by simpa [readSlots, pushRing] using h1
    rw [getElem_readSlots]
    have hhead : (pushRing e r).head = (r.head + 1) % r.size := rfl
    have hsz : (pushRing e r).size = r.size := rfl
    rw [hhead, hsz]
    have hmod : ((r.head + 1) % r.size + i) % r.size = (r.head + (1 + i)) % r.size := by
      rw [Nat.mod_add_mod, Nat.add_assoc]
    have hlen' : ((pushRing e r).buf).length = r.size := by
      simp [pushRing, hbuf]
    rcases Nat.lt_or_ge (i + 1) r.size with hcase | hcase
    · -- the slot read is an old, untouched one
      have hne : (r.head + (1 + i)) % r.size ≠ r.head := by
        rcases Nat.lt_or_ge (r.head + (1 + i)) r.size with hlt | hge
        · rw [Nat.mod_eq_of_lt hlt]; omega
        · have hsub : (r.head + (1 + i)) % r.size = r.head + (1 + i) - r.size := by
            rw [Nat.mod_eq_sub_mod hge, Nat.mod_eq_of_lt (by omega)]
          rw [hsub]; omega
      have hjlt : (r.head + (1 + i)) % r.size < r.size := Nat.mod_lt _ hC
      have lhs : (pushRing e r).buf.getD (((r.head + 1) % r.size + i) % r.size) none
          = r.buf.getD ((r.head + (1 + i)) % r.size) none := by
        rw [hmod, List.getD_eq_getElem _ _ (by omega : (r.head + (1 + i)) % r.size < (pushRing e r).buf.length),
          List.getD_eq_getElem _ _ (by omega : (r.head + (1 + i)) % r.size < r.buf.length)]
        simp only [pushRing]
        exact List.getElem_set_ne (Ne.symm hne) _
      rw [lhs]
      have hidx : i < ((readSlots r).drop 1).length := by
        simp [length_readSlots]; omega
      rw [List.getElem_append_left hidx, List.getElem_drop, getElem_readSlots]
    · -- i = size - 1: the freshly written slot
      have hieq : 1 + i = r.size := by omega
      have hmod2 : (r.head + (1 + i)) % r.size = r.head := by
        rw [hieq, Nat.add_mod_right, Nat.mod_eq_of_lt hh]
      have lhs : (pushRing e r).buf.getD (((r.head + 1) % r.size + i) % r.size) none
          = some e := by
        rw [hmod, hmod2, List.getD_eq_getElem _ _ (by omega : r.head < (pushRing e r).buf.length)]
        simp only [pushRing]
        exact List.getElem_set_self _
      rw [lhs]
      have hge2 : ((readSlots r).drop 1).length ≤ i := by
        simp [length_readSlots]; omega
      rw [List.getElem_append_right hge2]
      simp

theorem Rep_empty {α : Type} (C : Nat) (hC : 1 ≤ C) :
    Rep (emptyRing α C) ([] : List α) := by
  refine ⟨by simp [emptyRing], by simpa [emptyRing] using hC, by simp, ?_⟩
  simp only [emptyRing, List.length_nil, Nat.sub_zero, List.map_nil, List.append_nil]
  rw [List.eq_replicate_iff]
  constructor
  · simp [readSlots]
  · intro b hb
    simp only [readSlots] at hb
    obtain ⟨i, _, hi⟩ := List.mem_map.mp hb
    rw [← hi]
    exact getD_replicate_none C _

theorem Rep_push {α : Type} (e : α) (r : Ring α) (l : List α) (hRep : Rep r l) :
    Rep (pushRing e r) (absPush r.size l e) := by
  obtain ⟨hbuf, hh, hlen, hreads⟩ := hRep
  have hC : 0 < r.size := Nat.lt_of_le_of_lt (Nat.zero_le _) hh
  have hbuf' : (pushRing e r).buf.length = (pushRing e r).size := by
    simp [pushRing, hbuf]
  have hh' : (pushRing e r).head < (pushRing e r).size := by
    simp only [pushRing]
    exact Nat.mod_lt _ hC
  have hrp := readSlots_push e r hbuf hh
  by_cases hfull : l.length < r.size
  · refine ⟨hbuf', hh', ?_, ?_⟩
    · simp [absPush, hfull, pushRing]
      omega
    · rw [hrp, hreads]
      have h1 : (1 : Nat) ≤ (List.replicate (r.size - l.length) (none : Option α)).length := by
        simp; omega
      rw [List.drop_append_of_le_length h1]
      have hdrop : (List.replicate (r.size - l.length) (none : Option α)).drop 1
          = List.replicate (r.size - l.length - 1) none := by
        have : r.size - l.length = (r.size - l.length - 1) + 1 := by omega
        rw [this, List.replicate_succ]
        simp
      rw [hdrop]
      simp only [pushRing, absPush, hfull, if_pos]
      rw [List.map_append]
      have : r.size - (l ++ [e]).length = r.size - l.length - 1 := by simp; omega
      rw [this, List.append_assoc]
      rfl
  · have hk : l.length = r.size := Nat.le_antisymm hlen (Nat.le_of_not_lt hfull)
    refine ⟨hbuf', hh', ?_, ?_⟩
    · simp [absPush, hfull, pushRing]
      omega
    · rw [hrp, hreads, hk]
      simp only [Nat.sub_self, List.replicate_zero, List.nil_append]
      have hmap : (l.map some).drop 1 = (l.tail).map some := by
        rw [← List.drop_one, List.map_drop, List.drop_one]
      rw [hmap]
      simp only [pushRing, absPush, hfull, if_neg, not_false_iff]
      have htl : (l.tail ++ [e]).length = r.size := by
        simp; omega
      rw [List.map_append]
      have hz : r.size - (l.tail ++ [e]).length = 0 := by omega
      simp only [hz, List.replicate_zero, List.nil_append]
      simp

theorem Rep_pushAll {α : Type} (es : List α) :
    ∀ (r : Ring α) (l : List α), Rep r l →
      Rep (pushAll es r) (es.foldl (absPush r.size) l) := by
  induction es with
  | nil => intro r l h; exact h
  | cons e es ih =>
    intro r l h
    have h2 := ih (pushRing e r) (absPush r.size l e) (Rep_push e r l h)
    simpa [pushAll, List.foldl_cons] using h2

theorem filterMap_id_replicate_none {α : Type} (n : Nat) :
    (List.replicate n (none : Option α)).filterMap id = [] := by
  induction n with
  | zero => rfl
  | succ n ih => simp [List.replicate_succ, ih]

theorem getLogs_of_Rep {α : Type} (r : Ring α) (l : List α) (h : Rep r l) :
    getLogs r = l := by
  obtain ⟨_, _, _, hreads⟩ := h
  rw [getLogs, hreads, List.filterMap_append, filterMap_id_replicate_none,
    List.filterMap_map]
  simp

theorem foldl_absPush_eq {α : Type} (C : Nat) (hC : 1 ≤ C) (es : List α) :
    es.foldl (absPush C) [] = es.drop (es.length - min es.length C) := by
  induction es using List.reverseRecOn with
  | nil => simp
  | append_singleton es e ih =>
    rw [List.foldl_append, ih, List.foldl_cons, List.foldl_nil]
    by_cases hlt : es.length < C
    · have hmin : min es.length C = es.length := Nat.min_eq_left (Nat.le_of_lt hlt)
      have hmin' : min (es ++ [e]).length C = (es ++ [e]).length := by
        simp only [List.length_append, List.length_singleton]
        omega
      rw [hmin, hmin', Nat.sub_self, Nat.sub_self, List.drop_zero, List.drop_zero,
        absPush, if_pos hlt]
    · have hge : C ≤ es.length := Nat.le_of_not_lt hlt
      have hmin : min es.length C = C := Nat.min_eq_right hge
      have hlenA : (es.drop (es.length - min es.length C)).length = C := by
        simp [hmin]; omega
      rw [absPush, if_neg (by omega)]
      have htail : (es.drop (es.length - min es.length C)).tail
          = es.drop ((es ++ [e]).length - min (es ++ [e]).length C) := by
        rw [← List.drop_one, List.drop_drop]
        congr 1
        simp only [List.length_append, List.length_singleton]
        omega
      rw [htail]
      have hle : (es ++ [e]).length - min (es ++ [e]).length C ≤ es.length := by
        simp only [List.length_append, List.length_singleton]
        omega
      rw [List.drop_append_of_le_length hle]

/-- C1: for every capacity `C ≥ 1` and every sequence `es` of pushes into the
empty ring store, the store afterwards retains exactly `min es.length C`
entries, namely the most-recently pushed ones in push order (`pushRing` is a
total function: a push never fails, and once full it evicts the oldest). -/
theorem ring_retains_recent (α : Type) (C : Nat) (hC : 1 ≤ C) (es : List α) :
    getLogs (pushAll es (emptyRing α C)) = es.drop (es.length - min es.length C) ∧
    (getLogs (pushAll es (emptyRing α C))).length = min es.length C := by
  have hrep := Rep_pushAll es (emptyRing α C) [] (Rep_empty C hC)
  have h1 : getLogs (pushAll es (emptyRing α C)) = es.foldl (absPush C) [] :=
    getLogs_of_Rep _ _ hrep
  rw [h1, foldl_absPush_eq C hC es]
  refine ⟨rfl, ?_⟩
  simp only [List.length_drop]
  omega

/-- Witness for C1 at capacity 2 with three pushes: entries 20 and 30 survive. -/
theorem ring_retains_recent_witness :
    1 ≤ 2 ∧
      (getLogs (pushAll [10, 20, 30] (emptyRing Nat 2)) =
          [10, 20, 30].drop ([10, 20, 30].length - min ([10, 20, 30] : List Nat).length 2) ∧
        (getLogs (pushAll [10, 20, 30] (emptyRing Nat 2))).length =
          min ([10, 20, 30] : List Nat).length 2) :=
  ⟨by decide, ring_retains_recent Nat 2 (by decide) [10, 20, 30]⟩

/-! ## Claim theorems -/

theorem jsLeNum_one_iff (level : Option Nat) :
    jsLeNum level 1 = true ↔ (level = some 0 ∨ level = some 1) := by
  cases level with
  | none => simp [jsLeNum]
  | some a =>
    simp [jsLeNum]
    omega

theorem beq_some_zero_or (level : Option Nat) (flags : Option SL.Flags) :
    ((level == some 0) || SL.flagNotifyNow flags) = true ↔
      (level = some 0 ∨ SL.flagNotifyNow flags = true) := by
  rw [Bool.or_eq_true, beq_iff_eq]

/-- C2: when a logging call's message is a zero-argument producer `f`, the
class `Logger.log` invokes it exactly once if the entry passes the stream
gate and the severity gate — the final thunk state is `f` applied once to
the incoming one — and does not invoke it at all when the entry is filtered
out by the stream allow-list, a missing level, or the severity filter
(final thunk state unchanged). -/
theorem log_thunk_exactly_once {σ : Type} (cfg : CL.LoggerCfg σ) (ctx : CL.CLGameCtx)
    (st : CL.LogSt σ) (ref : Nat) (f : σ → String × σ)
    (hmsg : (st.heap ref).message = CL.Msg.fn f) :
    (CL.streamBlocked cfg.name ctx.stream = false →
      ∀ l : Nat, (st.heap ref).level = some l → l ≤ cfg.level →
        (CL.log cfg ctx st ref).thunkSt = (f st.thunkSt).2) ∧
    ((CL.streamBlocked cfg.name ctx.stream = true ∨ (st.heap ref).level = none ∨
        jsGtNum (st.heap ref).level cfg.level = true) →
      (CL.log cfg ctx st ref).thunkSt = st.thunkSt) := by
  constructor
  · intro hsb l hl hle
    have hgt : jsGtNum (some l) cfg.level = false := by
      simp [jsGtNum]
      omega
    simp [CL.log, hsb, hl, hgt, hmsg]
  · intro h
    cases hs : CL.streamBlocked cfg.name ctx.stream with
    | true => simp [CL.log, hs]
    | false =>
      rcases h with hsb | hnone | hgt
      · rw [hs] at hsb
        exact absurd hsb (by simp)
      · simp [CL.log, hs, hnone]
      · cases hl0 : (st.heap ref).level with
        | none => simp [CL.log, hs, hl0]
        | some l2 =>
          rw [hl0] at hgt
          simp [CL.log, hs, hl0, hgt]

/-- Witness for C2: the counter ends at 1 on a passed-through call and at 0
on a stream-filtered call. -/
theorem log_thunk_exactly_once_witness :
    ((stW.heap 0).message = CL.Msg.fn counterThunk ∧
      CL.streamBlocked cfgW.name ctxW.stream = false ∧
      (stW.heap 0).level = some 2 ∧ 2 ≤ cfgW.level ∧
      (CL.log cfgW ctxW stW 0).thunkSt = (counterThunk stW.thunkSt).2 ∧
      (CL.log cfgW ctxW stW 0).thunkSt = 1) ∧
    ((CL.streamBlocked cfgW.name { ctxW with stream := some ["Other"] }.stream = true ∨
        (stW.heap 0).level = none ∨ jsGtNum (stW.heap 0).level cfgW.level = true) ∧
      (CL.log cfgW { ctxW with stream := some ["Other"] } stW 0).thunkSt = stW.thunkSt ∧
      (CL.log cfgW { ctxW with stream := some ["Other"] } stW 0).thunkSt = 0) :=
  ⟨⟨rfl, rfl, rfl, by decide,
      (log_thunk_exactly_once cfgW ctxW stW 0 counterThunk rfl).1 rfl 2 rfl (by decide),
      by decide⟩,
    ⟨Or.inl (by decide),
      (log_thunk_exactly_once cfgW { ctxW with stream := some ["Other"] } stW 0 counterThunk
          rfl).2 (Or.inl (by decide)),
      by decide⟩⟩

/-- C3: with the minimum severity set to WARN (level 1 on the 0..4 scale)
and no category allow-list, an INFO(2) call is fully suppressed — ring
unchanged, nothing rendered, no notification — while an ERROR(0) call is
pushed onto the ring, rendered, and submitted to `Game.notify`. -/
theorem warn_threshold_scenario (ctx : SL.SLCtx) (r : Ring SL.SLEntry) (cat : Nat)
    (room : Option String) (msg : Nat) (data : Option (List (String × String)))
    (flags : Option SL.Flags) :
    SL.emit { level := 1, enabledCats := none } ctx r (some 2) cat room msg data flags
        = { ring := r, rendered := none, notified := none } ∧
    (SL.emit { level := 1, enabledCats := none } ctx r (some 0) cat room msg data flags).ring
        = pushRing (SL.mkEntry ctx (some 0) cat room msg data flags) r ∧
    (SL.emit { level := 1, enabledCats := none } ctx r (some 0) cat room msg data
          flags).rendered
        = some (SL.renderLine ctx (SL.mkEntry ctx (some 0) cat room msg data flags)) ∧
    (SL.emit { level := 1, enabledCats := none } ctx r (some 0) cat room msg data
          flags).notified.isSome = true := by
  refine ⟨?_, ?_, ?_, ?_⟩ <;>
    simp [SL.emit, SL.enabled, SL.catBlocked, jsGtNum, SL.shouldNotify, jsLeNum]

/-- C4: for an emitted (unfiltered) entry, `Game.notify` is called iff the
severity is one of the two highest-priority levels (ERROR or WARN) or the
`notify` force flag is set; the submitted throttle interval is 0 exactly
when the severity is ERROR or `notifyNow` is set, and `NOTIFY_INTERVAL`
otherwise. -/
theorem notify_decision (cfg : SL.SLCfg) (ctx : SL.SLCtx) (r : Ring SL.SLEntry)
    (level : Option Nat) (cat : Nat) (room : Option String) (msg : Nat)
    (data : Option (List (String × String))) (flags : Option SL.Flags)
    (h : SL.enabled cfg level cat = true) :
    ((SL.emit cfg ctx r level cat room msg data flags).notified.isSome = true ↔
      (level = some 0 ∨ level = some 1 ∨ SL.flagNotify flags = true)) ∧
    (∀ (s : String) (itv : Nat),
      (SL.emit cfg ctx r level cat room msg data flags).notified = some (s, itv) →
        (itv = 0 ↔ (level = some 0 ∨ SL.flagNotifyNow flags = true)) ∧
        (¬(level = some 0 ∨ SL.flagNotifyNow flags = true) → itv = SL.NOTIFY_INTERVAL)) := by
  have hkey : (SL.shouldNotify level msg || SL.flagNotify flags) = true ↔
      (level = some 0 ∨ level = some 1 ∨ SL.flagNotify flags = true) := by
    rw [Bool.or_eq_true, SL.shouldNotify, jsLeNum_one_iff]
    tauto
  cases hc : (SL.shouldNotify level msg || SL.flagNotify flags) with
  | false =>
    have hfalse : ¬(level = some 0 ∨ level = some 1 ∨ SL.flagNotify flags = true) := by
      rw [← hkey, hc]
      simp
    push_neg at hfalse
    constructor
    · simp [SL.emit, h, hc]
      exact ⟨hfalse.1, hfalse.2.1, by simpa using hfalse.2.2⟩
    · intro s itv heq
      rw [SL.emit] at heq
      simp [h, hc] at heq
  | true =>
    constructor
    · simp [SL.emit, h, hc]
      exact hkey.mp hc
    · intro s itv heq
      rw [SL.emit] at heq
      simp [h, hc] at heq
      by_cases hcond : (level = some 0 ∨ SL.flagNotifyNow flags = true)
      · rw [if_pos hcond] at heq
        constructor
        · rw [← heq.2]
          simp [hcond]
        · intro hcon
          exact absurd hcond hcon
      · rw [if_neg hcond] at heq
        constructor
        · rw [← heq.2]
          constructor
          · intro h60
            exact absurd h60 (by decide)
          · intro hcon
            exact absurd hcon hcond
        · intro _
          exact heq.2.symm

/-- Witness for C4 at an emitted ERROR entry with no flags: a notification
with interval 0. -/
theorem notify_decision_witness :
    SL.enabled sampleCfg (some 0) 3 = true ∧
      (((SL.emit sampleCfg sampleCtx (emptyRing SL.SLEntry 3) (some 0) 3 none 100 none
              none).notified.isSome = true ↔
          (some 0 = some 0 ∨ some 0 = some 1 ∨ SL.flagNotify none = true)) ∧
        (∀ (s : String) (itv : Nat),
          (SL.emit sampleCfg sampleCtx (emptyRing SL.SLEntry 3) (some 0) 3 none 100 none
              none).notified = some (s, itv) →
            (itv = 0 ↔ (some 0 = some 0 ∨ SL.flagNotifyNow none = true)) ∧
            (¬(some 0 = some 0 ∨ SL.flagNotifyNow none = true) →
              itv = SL.NOTIFY_INTERVAL))) :=
  ⟨by decide,
    notify_decision sampleCfg sampleCtx (emptyRing SL.SLEntry 3) (some 0) 3 none 100 none
      none (by decide)⟩

theorem jsAdvance_iterate_undef (C k : Nat) :
    (JSLoop.jsAdvance C)^[k + 1] JSLoop.JSIdx.undef = JSLoop.JSIdx.nan := by
  induction k with
  | zero => rfl
  | succ k ih =>
    rw [Function.iterate_succ_apply', ih]
    rfl

/-- C5 (presence of the bug in the `part_000` variant of `Logger.print`): on
the completely empty buffer (`memory.index` is `undefined`, as before any
log call) the do-while loop never exits — after every body iteration the
index is `NaN`, which is strictly unequal to the `undefined` start value —
while for a defined head (shown at head 0, the only reachable fresh head)
the index walk first returns to its start after exactly `C = 50` steps,
never earlier. -/
theorem print_empty_buffer_diverges :
    (∀ k : Nat, JSLoop.jsEqIdx ((JSLoop.jsAdvance 50)^[k + 1] JSLoop.JSIdx.undef)
        JSLoop.JSIdx.undef = false) ∧
    ((List.range 50).all (fun k => decide (k = 0) ||
        !(JSLoop.jsEqIdx ((JSLoop.jsAdvance 50)^[k] (JSLoop.JSIdx.num 0))
          (JSLoop.JSIdx.num 0)))) = true ∧
    JSLoop.jsEqIdx ((JSLoop.jsAdvance 50)^[50] (JSLoop.JSIdx.num 0))
        (JSLoop.JSIdx.num 0) = true := by
  refine ⟨?_, by decide, by decide⟩
  intro k
  rw [jsAdvance_iterate_undef]
  rfl

/-- C6 counterexample: the `emit` hot path does not drop a malformed
(undefined-severity) call — under the default configuration the entry is
rendered and pushed into the ring (the head advances). -/
theorem emit_undefined_level_not_dropped :
    (SL.emit sampleCfg sampleCtx (emptyRing SL.SLEntry 3) none 0 none 100 none
        none).rendered.isSome = true ∧
    (SL.emit sampleCfg sampleCtx (emptyRing SL.SLEntry 3) none 0 none 100 none
        none).ring.head = 1 ∧
    (emptyRing SL.SLEntry 3).head = 0 := by
  exact ⟨by decide, by decide, by decide⟩

/-- C6 amended: the class `Logger.log` silently drops a malformed entry
(missing `level`) — state unchanged: nothing stored, rendered or notified,
and no exception (the embedded function is total).  The `emit` path does
not drop it: with no category allow-list active, an `undefined` level
passes `enabled` (JS `undefined > n` is false), so the entry is rendered
and stored, though `Game.notify` fires only when the notify flag forces it;
no exception propagates there either. -/
theorem malformed_entry_amended :
    (∀ (σ : Type) (cfg : CL.LoggerCfg σ) (ctx : CL.CLGameCtx) (st : CL.LogSt σ) (ref : Nat),
      (st.heap ref).level = none → CL.log cfg ctx st ref = st) ∧
    (∀ (cfg : SL.SLCfg) (ctx : SL.SLCtx) (r : Ring SL.SLEntry) (cat : Nat)
        (room : Option String) (msg : Nat) (data : Option (List (String × String)))
        (flags : Option SL.Flags), cfg.enabledCats = none →
      (SL.emit cfg ctx r none cat room msg data flags).rendered.isSome = true ∧
      (SL.emit cfg ctx r none cat room msg data flags).ring
        = pushRing (SL.mkEntry ctx none cat room msg data flags) r ∧
      ((SL.emit cfg ctx r none cat room msg data flags).notified.isSome = true ↔
        SL.flagNotify flags = true)) := by
  constructor
  · intro σ cfg ctx st ref hnone
    cases hs : CL.streamBlocked cfg.name ctx.stream with
    | true => simp [CL.log, hs]
    | false => simp [CL.log, hs, hnone]
  · intro cfg ctx r cat room msg data flags hcats
    have hen : SL.enabled cfg none cat = true := by
      simp [SL.enabled, SL.catBlocked, hcats, jsGtNum]
    refine ⟨?_, ?_, ?_⟩ <;>
      simp [SL.emit, hen, SL.shouldNotify, jsLeNum] <;>
        cases hf : SL.flagNotify flags <;> simp [hf]

/-- Witness for C6 amended: a malformed class-log call is a no-op, and a
malformed emit call under the default configuration stores and renders. -/
theorem malformed_entry_amended_witness :
    ((stMalformed.heap 0).level = none ∧
      CL.log cfgW ctxW stMalformed 0 = stMalformed) ∧
    (sampleCfg.enabledCats = none ∧
      ((SL.emit sampleCfg sampleCtx (emptyRing SL.SLEntry 3) none 0 none 100 none
            none).rendered.isSome = true ∧
        (SL.emit sampleCfg sampleCtx (emptyRing SL.SLEntry 3) none 0 none 100 none
            none).ring
          = pushRing (SL.mkEntry sampleCtx none 0 none 100 none none)
              (emptyRing SL.SLEntry 3) ∧
        ((SL.emit sampleCfg sampleCtx (emptyRing SL.SLEntry 3) none 0 none 100 none
              none).notified.isSome = true ↔ SL.flagNotify none = true))) :=
  ⟨⟨rfl, malformed_entry_amended.1 Nat cfgW ctxW stMalformed 0 rfl⟩,
    ⟨rfl, malformed_entry_amended.2 sampleCfg sampleCtx (emptyRing SL.SLEntry 3) 0 none 100
        none none rfl⟩⟩

/-- C7 counterexample: rendering does not always complete with defaults —
`Logger.defaultFormat` on an entry whose severity 7 is outside the
`LEVEL_NAMES` enumeration throws a TypeError
(`LEVEL_NAMES[7]` is `undefined` and `.padEnd` is called on it). -/
theorem defaultFormat_unknown_level_throws :
    CL.defaultFormatE ctxCL "x" { level := 7, message := "m", time := "T" }
      = Except.error "TypeError" := by
  rfl

/-- C7 amended: unknown message codes fall back to `MSG_<code>`, and the
emit-path renderer never throws on an out-of-enumeration severity or
category — the lookup misses are coerced to the text `undefined` rather
than a designated default label/color — but `logger.js`'s `defaultFormat`
throws a TypeError for any severity outside `LEVEL_NAMES` (only severities
0..5 render, and only the color has an explicit `DEFAULT` fallback). -/
theorem render_fallback_amended :
    (∀ (ctx : CL.CLCtx) (name : String) (e : CL.FEntry), 6 ≤ e.level →
      CL.defaultFormatE ctx name e = Except.error "TypeError") ∧
    (∀ (ctx : CL.CLCtx) (name : String) (e : CL.FEntry), e.level < 6 →
      ∃ s, CL.defaultFormatE ctx name e = Except.ok s) ∧
    (∀ m : Nat, SL.MSG_TEXT.lookup m = none →
      SL.msgTextOf m = "MSG_" ++ toString m) ∧
    (∀ n : Nat, 5 ≤ n → jsIdxStr SL.LEVEL_NAME (some n) = "undefined") ∧
    (∀ c : Nat, SL.CAT_NAME.lookup c = none → SL.catNameOf c = "undefined") := by
  refine ⟨?_, ?_, ?_, ?_, ?_⟩
  · intro ctx name e he
    have hget : CL.LEVEL_NAMES[e.level]? = none := by
      rw [List.getElem?_eq_none_iff]
      simpa [CL.LEVEL_NAMES] using he
    simp [CL.defaultFormatE, hget]
  · intro ctx name e he
    obtain ⟨l, m, t, tk, rn, rp⟩ := e
    simp only [CL.FEntry.level] at he
    interval_cases l <;> exact ⟨_, rfl⟩
  · intro m hm
    simp [SL.msgTextOf, hm, jsOrStr]
  · intro n hn
    show SL.LEVEL_NAME.getD n "undefined" = "undefined"
    exact List.getD_eq_default _ _ (by simp [SL.LEVEL_NAME]; omega)
  · intro c hc
    simp [SL.catNameOf, hc, jsOrStr]

/-- Witness for C7 amended, at severity 9 (throws), severity 2 (renders),
message code 1 (fallback text), severity label index 7 and category 99
(both coerced to `undefined`). -/
theorem render_fallback_amended_witness :
    (6 ≤ (9 : Nat) ∧ CL.defaultFormatE ctxCL "x" { level := 9, message := "m", time := "T" }
        = Except.error "TypeError") ∧
    ((2 : Nat) < 6 ∧ ∃ s, CL.defaultFormatE ctxCL "x"
        { level := 2, message := "m", time := "T" } = Except.ok s) ∧
    (SL.MSG_TEXT.lookup 1 = none ∧ SL.msgTextOf 1 = "MSG_" ++ toString 1) ∧
    (5 ≤ (7 : Nat) ∧ jsIdxStr SL.LEVEL_NAME (some 7) = "undefined") ∧
    (SL.CAT_NAME.lookup 99 = none ∧ SL.catNameOf 99 = "undefined") :=
  ⟨⟨by decide, render_fallback_amended.1 ctxCL "x" _ (by decide)⟩,
    ⟨by decide, render_fallback_amended.2.1 ctxCL "x"
      { level := 2, message := "m", time := "T" } (by decide)⟩,
    ⟨by decide, render_fallback_amended.2.2.1 1 (by decide)⟩,
    ⟨by decide, render_fallback_amended.2.2.2.1 7 (by decide)⟩,
    ⟨by decide, render_fallback_amended.2.2.2.2 99 (by decide)⟩⟩

/-- C8: the severity filter accepts every entry at least as urgent as the
configured minimum (numerically `l ≤ cfg.level`) that passes the active
category filter; and the filter is monotone — raising verbosity (a larger
`level` threshold, same category configuration) keeps every previously
accepted entry accepted. -/
theorem filter_monotone :
    (∀ (cfg : SL.SLCfg) (l c : Nat), l ≤ cfg.level → SL.catBlocked cfg c = false →
      SL.enabled cfg (some l) c = true) ∧
    (∀ (cfg cfg2 : SL.SLCfg) (lv : Option Nat) (c : Nat),
      cfg.level ≤ cfg2.level → cfg.enabledCats = cfg2.enabledCats →
      SL.enabled cfg lv c = true → SL.enabled cfg2 lv c = true) := by
  constructor
  · intro cfg l c hl hcat
    have hgt : jsGtNum (some l) cfg.level = false := by
      simp [jsGtNum]
      omega
    simp [SL.enabled, hgt, hcat]
  · intro cfg cfg2 lv c hle hcats h
    have hg : jsGtNum lv cfg.level = false := by
      cases hgv : jsGtNum lv cfg.level with
      | false => rfl
      | true =>
        rw [SL.enabled, if_pos hgv] at h
        exact absurd h (by simp)
    have hcb : SL.catBlocked cfg c = false := by
      cases hcv : SL.catBlocked cfg c with
      | false => rfl
      | true =>
        rw [SL.enabled, hg] at h
        simp [hcv] at h
    have hg2 : jsGtNum lv cfg2.level = false := by
      cases lv with
      | none => rfl
      | some a =>
        simp [jsGtNum] at hg ⊢
        omega
    have hcb2 : SL.catBlocked cfg2 c = false := by
      rw [SL.catBlocked, ← hcats]
      rw [SL.catBlocked] at hcb
      exact hcb
    simp [SL.enabled, hg2, hcb2]

/-- Witness for C8: WARN passes at the INFO threshold, and stays accepted
after raising verbosity to TRACE. -/
theorem filter_monotone_witness :
    ((1 : Nat) ≤ sampleCfg.level ∧ SL.catBlocked sampleCfg 3 = false ∧
      SL.enabled sampleCfg (some 1) 3 = true) ∧
    (sampleCfg.level ≤ (4 : Nat) ∧ sampleCfg.enabledCats = none ∧
      SL.enabled sampleCfg (some 1) 3 = true ∧
      SL.enabled { level := 4, enabledCats := none } (some 1) 3 = true) :=
  ⟨⟨by decide, by decide, filter_monotone.1 sampleCfg 1 3 (by decide) (by decide)⟩,
    ⟨by decide, rfl, by decide,
      filter_monotone.2 sampleCfg { level := 4, enabledCats := none } (some 1) 3 (by decide)
        rfl (by decide)⟩⟩

/-- C9 (presence of the bug): `Logger.clearAll` of `screeps-logger.js`
compares keys against the literal `"._stream"`, but the stream allow-list
key written by `setStream` is `"_stream"`, which never matches — so
`clearAll` deletes the stream allow-list along with every per-logger entry:
on a store holding the stream key and one logger the result is empty. -/
theorem clearAll_deletes_stream :
    CL.clearAll [("_stream", 0), ("Alpha", 1)] = ([] : List (String × Nat)) ∧
    (CL.clearAll [("_stream", 0), ("Alpha", 1)]).lookup "_stream" = none := by
  exact ⟨by decide, by decide⟩

/-- C10: for an entry object (passed by reference) that survives the
filters, `Logger.log` mutates the caller's object in place — the function
message is replaced by its produced string, and `timestamp`, `tick`,
`notify`, `memory` are assigned onto it — and the ring slot stores that
same reference, not a copy; no other heap object is touched. -/
theorem log_stores_same_reference {σ : Type} (cfg : CL.LoggerCfg σ) (ctx : CL.CLGameCtx)
    (st : CL.LogSt σ) (ref : Nat) (f : σ → String × σ) (l : Nat)
    (hsb : CL.streamBlocked cfg.name ctx.stream = false)
    (hl : (st.heap ref).level = some l) (hle : l ≤ cfg.level)
    (hmsg : (st.heap ref).message = CL.Msg.fn f)
    (hmem : (st.heap ref).memory = some true) :
    (CL.log cfg ctx st ref).mem.slots (st.mem.index.getD 0) = some ref ∧
    (CL.log cfg ctx st ref).mem.index = some ((st.mem.index.getD 0 + 1) % cfg.limit) ∧
    ((CL.log cfg ctx st ref).heap ref).message = CL.Msg.str (f st.thunkSt).1 ∧
    ((CL.log cfg ctx st ref).heap ref).timestamp = some ctx.now ∧
    ((CL.log cfg ctx st ref).heap ref).tick = some (jsOrNat (st.heap ref).tick ctx.time) ∧
    ((CL.log cfg ctx st ref).heap ref).notify.isSome = true ∧
    ((CL.log cfg ctx st ref).heap ref).memory = some true ∧
    (∀ x : Nat, x ≠ ref → (CL.log cfg ctx st ref).heap x = st.heap x) := by
  have hgt : jsGtNum (some l) cfg.level = false := by
    simp [jsGtNum]
    omega
  cases hn : (st.heap ref).notify with
  | none =>
    refine ⟨?_, ?_, ?_, ?_, ?_, ?_, ?_, ?_⟩ <;>
      simp [CL.log, hsb, hl, hgt, hmsg, hmem, hn, updFn]
    intro x hx
    simp [hx]
  | some b =>
    refine ⟨?_, ?_, ?_, ?_, ?_, ?_, ?_, ?_⟩ <;>
      simp [CL.log, hsb, hl, hgt, hmsg, hmem, hn, updFn]
    intro x hx
    simp [hx]

/-- Witness for C10: in a fresh memory, slot 0 ends up holding reference 0,
whose object now carries the produced message and the assigned fields. -/
theorem log_stores_same_reference_witness :
    (CL.streamBlocked cfgW.name ctxW.stream = false ∧ (stW.heap 0).level = some 2 ∧
      2 ≤ cfgW.level ∧ (stW.heap 0).message = CL.Msg.fn counterThunk ∧
      (stW.heap 0).memory = some true) ∧
    ((CL.log cfgW ctxW stW 0).mem.slots (stW.mem.index.getD 0) = some 0 ∧
      (CL.log cfgW ctxW stW 0).mem.index = some ((stW.mem.index.getD 0 + 1) % cfgW.limit) ∧
      ((CL.log cfgW ctxW stW 0).heap 0).message = CL.Msg.str (counterThunk stW.thunkSt).1 ∧
      ((CL.log cfgW ctxW stW 0).heap 0).timestamp = some ctxW.now ∧
      ((CL.log cfgW ctxW stW 0).heap 0).tick = some (jsOrNat (stW.heap 0).tick ctxW.time) ∧
      ((CL.log cfgW ctxW stW 0).heap 0).notify.isSome = true ∧
      ((CL.log cfgW ctxW stW 0).heap 0).memory = some true ∧
      (∀ x : Nat, x ≠ 0 → (CL.log cfgW ctxW stW 0).heap x = stW.heap x)) :=
  ⟨⟨rfl, rfl, by decide, rfl, rfl⟩,
    log_stores_same_reference cfgW ctxW stW 0 counterThunk 2 rfl rfl (by decide) rfl rfl⟩

end ScreepsLogger
